import Mathlib

/-!
Verification of the workspace-synchronization core of a browser-based
directory viewer/editor ("Text IDE").

The development shallowly embeds:
* the cursor-preserving hot-patch of the Monaco-backed file editor
  (frontend/src/components/FileEditor.tsx, updateContentWithoutFocus);
* the client-side reconciliation handler for incoming change events
  (frontend/src/App.tsx, handleWebSocketMessage / handleFileContentChange);
* the process-wide WebSocket connection manager
  (frontend/src/hooks/useWebSocket.ts, module-level globals, createConnection,
  the subscribe/cleanup effect, and both revisions of sendMessage);
* the server-side Change Broadcast Hub debounce, modelled from the spec
  because the backend sources are not part of the frontend tree.
-/

namespace TextIde

/-! ## Text model (Monaco line/column semantics)

A document is a string; Monaco splits it into lines on the newline
character.  Lines and columns are 1-based; the maximal column of a line is
its length plus one (the position after the last character).  These are the
semantics of `model.getLineCount()` and `model.getLineMaxColumn(l)` used by
`updateContentWithoutFocus`. -/

/-- Split a character list into lines at newline characters.  The result is
never empty: an empty text has exactly one (empty) line, as in Monaco. -/
def splitLines : List Char → List (List Char)
  | [] => [[]]
  | c :: cs =>
    let r := splitLines cs
    if c = '\n' then [] :: r
    else
      match r with
      | l :: ls => (c :: l) :: ls
      | [] => [[c]]

/-- The lines of a document string. -/
def linesOf (s : String) : List (List Char) := splitLines s.data

/-- `model.getLineCount()`. -/
def lineCount (s : String) : Nat := (linesOf s).length

/-- `model.getLineMaxColumn(l)` for a 1-based line number `l`: length of the
line plus one. -/
def getLineMaxColumn (s : String) (l : Nat) : Nat :=
  ((linesOf s).getD (l - 1) []).length + 1

/-- A Monaco cursor position (1-based line and column). -/
structure Position where
  lineNumber : Nat
  column : Nat
deriving DecidableEq, Repr

/-- A Monaco selection (1-based line/column endpoints). -/
structure Selection where
  startLineNumber : Nat
  startColumn : Nat
  endLineNumber : Nat
  endColumn : Nat
deriving DecidableEq, Repr

/-- The editor state that `updateContentWithoutFocus` reads and writes:
the model content, the cursor position and the selection. -/
structure EditorState where
  content : String
  cursor : Position
  selection : Selection
deriving DecidableEq, Repr

/-- The `validPosition` computed inside `updateContentWithoutFocus`:
clamp the line to the new line count, then clamp the column to the maximal
column of the clamped line. -/
def validPosition (newContent : String) (p : Position) : Position :=
  { lineNumber := min p.lineNumber (lineCount newContent),
    column := min p.column
      (getLineMaxColumn newContent (min p.lineNumber (lineCount newContent))) }

/-- The `validSelection` computed inside `updateContentWithoutFocus`: both
endpoints are clamped the same way as the cursor. -/
def validSelection (newContent : String) (sel : Selection) : Selection :=
  { startLineNumber := min sel.startLineNumber (lineCount newContent),
    startColumn := min sel.startColumn
      (getLineMaxColumn newContent (min sel.startLineNumber (lineCount newContent))),
    endLineNumber := min sel.endLineNumber (lineCount newContent),
    endColumn := min sel.endColumn
      (getLineMaxColumn newContent (min sel.endLineNumber (lineCount newContent))) }

/-- `updateContentWithoutFocus(newContent)` from FileEditor.tsx: capture the
current position and selection, replace the model content, and restore the
position and selection clamped to the bounds of the new content. -/
def updateContentWithoutFocus (st : EditorState) (newContent : String) : EditorState :=
  { content := newContent,
    cursor := validPosition newContent st.cursor,
    selection := validSelection newContent st.selection }

/-! ## Reconciliation Engine (App.tsx)

`handleWebSocketMessage` is embedded as a pure step function from the
relevant React state (`tabId`, `rootPath`, `selectedFile`, `fileContent`),
the incoming message, and an environment (whether the editor update ref is
installed, and the outcome of the hot-patch re-fetch) to the new state plus
the list of side effects it requests.  JavaScript truthiness of the string
state (`rootPath`, `selectedFile`) is modelled explicitly: the empty string
and `null` are falsy. -/

/-- The JSON payload returned by `GET /api/file-content`. -/
structure FileContent where
  path : String
  content : String
  is_binary : Bool
deriving DecidableEq, Repr

/-- An incoming WebSocket message as read by `handleWebSocketMessage`:
only `type`, `path` and `sender` are consulted. -/
structure WsMessage where
  type : String
  path : Option String
  sender : Option String
deriving DecidableEq, Repr

/-- The App component state read and written by the handler. -/
structure AppState where
  tabId : String
  rootPath : String
  selectedFile : Option String
  fileContent : Option FileContent
deriving DecidableEq, Repr

/-- The observable side effects the handler can request. -/
inductive Action where
  | loadDirectory (path : String)
  | fetchFileContent (path : String)
  | updateEditorContent (content : String)
  | loadFileContent (path : String)
  | alertFileDeleted (path : String)
  | warnSmartSyncFailed
  | writeFile (path : String) (content : String)
deriving DecidableEq, Repr

/-- Environment of one handler invocation: whether
`updateEditorContentRef.current` is set, and the result of the re-fetch of
`/api/file-content` (`none` models a non-ok response or a thrown error). -/
structure SyncEnv where
  hasUpdateRef : Bool
  fetchResult : Option FileContent
deriving DecidableEq, Repr

/-- `startsWith` of JavaScript strings: the second string is a prefix of the
first. -/
def strStartsWith (s pre : String) : Bool := List.isPrefixOf pre.data s.data

/-- The guard `rootPath && message.path && message.path.startsWith(rootPath)`
of the tree-refresh branch. -/
def treeGuard (st : AppState) (msg : WsMessage) : Bool :=
  decide (st.rootPath ≠ "") &&
    (match msg.path with
     | some p => decide (p ≠ "") && strStartsWith p st.rootPath
     | none => false)

/-- The guard `selectedFile && message.path === selectedFile` of the
open-document branch. -/
def docGuard (st : AppState) (msg : WsMessage) : Bool :=
  match st.selectedFile with
  | some sel => decide (sel ≠ "") && decide (msg.path = some sel)
  | none => false

/-- The shared hot-patch body of the `file_changed` and `sync_tabs`
branches: if the editor update function is installed, re-fetch the file
content; on success feed it to the editor and store it in the state; on
failure warn and fall back to a full reload; without the update function,
fall back to a full reload directly. -/
def hotPatch (st : AppState) (sel : String) (env : SyncEnv) :
    AppState × List Action :=
  if env.hasUpdateRef then
    match env.fetchResult with
    | some c =>
      ({ st with fileContent := some c },
        [Action.fetchFileContent sel, Action.updateEditorContent c.content])
    | none =>
      (st, [Action.fetchFileContent sel, Action.warnSmartSyncFailed,
            Action.loadFileContent sel])
  else
    (st, [Action.loadFileContent sel])

/-- `handleWebSocketMessage` from App.tsx.  Note that the handler never
reads `message.sender`, and the `file_updated` branch is dead code. -/
def handleWebSocketMessage (st : AppState) (msg : WsMessage) (env : SyncEnv) :
    AppState × List Action :=
  if msg.type = "file_changed" then
    let treeActs := if treeGuard st msg then [Action.loadDirectory st.rootPath] else []
    match st.selectedFile with
    | some sel =>
      if sel ≠ "" ∧ msg.path = some sel then
        let r := hotPatch st sel env
        (r.1, treeActs ++ r.2)
      else (st, treeActs)
    | none => (st, treeActs)
  else if msg.type = "sync_tabs" then
    match st.selectedFile with
    | some sel =>
      if sel ≠ "" ∧ msg.path = some sel then hotPatch st sel env
      else (st, [])
    | none => (st, [])
  else if msg.type = "file_deleted" then
    let treeActs := if treeGuard st msg then [Action.loadDirectory st.rootPath] else []
    match st.selectedFile with
    | some sel =>
      if sel ≠ "" ∧ msg.path = some sel then
        ({ st with selectedFile := none, fileContent := none },
          treeActs ++ [Action.alertFileDeleted sel])
      else (st, treeActs)
    | none => (st, treeActs)
  else (st, [])

/-- `handleFileContentChange` from App.tsx: `if (!selectedFile) return;`
followed by a `POST /api/write-file` for the selected path. -/
def handleFileContentChange (st : AppState) (newContent : String) : List Action :=
  match st.selectedFile with
  | some sel =>
    if sel ≠ "" then [Action.writeFile sel newContent] else []
  | none => []

/-! ## Connection Manager (useWebSocket.ts, primary revision)

The module-level mutable state (`globalWebSocket`, `globalListeners`,
`connectionPromise`) together with the sockets ever created and the pending
reconnect timeouts form the state of a transition system.  Events are the
asynchronous callbacks of the source: a component subscribing (the mount
effect), a component unsubscribing (the cleanup), a socket's `onopen`, a
socket's `onclose` with a close code, and a reconnect `setTimeout` firing.
Each event is applied only when its guard holds (a socket can only open
while connecting, a timer can only fire while pending, ...), so every state
produced by a run of `applyEvent` is reachable in the source. -/

/-- Lifecycle state of one underlying WebSocket object. -/
inductive SockState where
  | connecting
  | opened
  | closed
deriving DecidableEq, Repr

/-- The connection-manager state: `socks` records every socket ever
created (indexed by creation order), `globalWebSocket` and
`connectionPromise` mirror the module-level variables (`connectionPromise`
holds the index of the socket the pending promise resolves to), `listeners`
mirrors `globalListeners`, and `reconnectTimers` counts scheduled reconnect
timeouts that have not fired yet. -/
structure CMState where
  socks : List SockState
  globalWebSocket : Option Nat
  connectionPromise : Option Nat
  listeners : List Nat
  reconnectTimers : Nat
deriving DecidableEq, Repr

/-- `createConnection(url)`: if `globalWebSocket` exists and is open the
promise resolves to it; otherwise a fresh socket is created in connecting
state and the promise tracks it. -/
def runCreateConnection (st : CMState) : CMState :=
  match st.globalWebSocket with
  | some i =>
    if st.socks[i]? = some SockState.opened then
      { st with connectionPromise := some i }
    else
      { st with socks := st.socks ++ [SockState.connecting],
                connectionPromise := some st.socks.length }
  | none =>
    { st with socks := st.socks ++ [SockState.connecting],
              connectionPromise := some st.socks.length }

/-- Events of the connection manager. -/
inductive CMEvent where
  | subscribe (l : Nat)
  | unsubscribe (l : Nat)
  | sockOpen (i : Nat)
  | sockClose (i : Nat) (code : Nat)
  | timerFire
deriving DecidableEq, Repr

/-- One step of the connection manager, following useWebSocket.ts:

* `subscribe l`: `globalListeners.add(listener)` then
  `if (!connectionPromise) connectionPromise = createConnection(url)`;
* `unsubscribe l` (the effect cleanup): `globalListeners.delete(listener)`;
  then, only when the listener set is empty and `globalWebSocket` is
  non-null, close it and null out both globals — a still-connecting socket
  (`globalWebSocket` null, promise pending) is left untouched;
* `sockOpen i` (`onopen`): the connecting socket becomes open and is stored
  in `globalWebSocket`;
* `sockClose i code` (`onclose`): the socket becomes closed,
  `globalWebSocket` and `connectionPromise` are nulled unconditionally;
  if the code is 1008 (server rejection) nothing else happens; otherwise a
  reconnect timeout is scheduled when at least one listener is registered;
* `timerFire`: a pending reconnect timeout runs
  `connectionPromise = createConnection(url)` unconditionally. -/
def applyEvent (st : CMState) : CMEvent → CMState
  | CMEvent.subscribe l =>
    let st1 := { st with listeners := if l ∈ st.listeners then st.listeners else l :: st.listeners }
    match st1.connectionPromise with
    | none => runCreateConnection st1
    | some _ => st1
  | CMEvent.unsubscribe l =>
    let st1 := { st with listeners := st.listeners.erase l }
    if st1.listeners = [] then
      match st1.globalWebSocket with
      | some i =>
        { st1 with socks := st1.socks.set i SockState.closed,
                   globalWebSocket := none, connectionPromise := none }
      | none => st1
    else st1
  | CMEvent.sockOpen i =>
    if st.socks[i]? = some SockState.connecting then
      { st with socks := st.socks.set i SockState.opened, globalWebSocket := some i }
    else st
  | CMEvent.sockClose i code =>
    if st.socks[i]? = some SockState.connecting ∨ st.socks[i]? = some SockState.opened then
      let st1 := { st with socks := st.socks.set i SockState.closed,
                           globalWebSocket := none, connectionPromise := none }
      if code = 1008 then st1
      else if st1.listeners ≠ [] then
        { st1 with reconnectTimers := st1.reconnectTimers + 1 }
      else st1
    else st
  | CMEvent.timerFire =>
    if 0 < st.reconnectTimers then
      runCreateConnection { st with reconnectTimers := st.reconnectTimers - 1 }
    else st

/-- The initial state: no sockets, no promise, no listeners, no timers. -/
def initCM : CMState :=
  { socks := [], globalWebSocket := none, connectionPromise := none,
    listeners := [], reconnectTimers := 0 }

/-- Run a sequence of events from the initial state. -/
def runCM (evs : List CMEvent) : CMState := evs.foldl applyEvent initCM

/-- The number of live (open) underlying WebSocket connections. -/
def liveCount (st : CMState) : Nat :=
  (st.socks.filter (fun s => s = SockState.opened)).length

/-- `sendMessage` (primary revision): if `globalWebSocket` exists and is
open, transmit the message; otherwise log a warning and do nothing — the
result is the unchanged state, the transmitted message if any, and whether
the warning was logged. -/
def sendMessage (st : CMState) (m : String) : CMState × Option String × Bool :=
  match st.globalWebSocket with
  | some i =>
    if st.socks[i]? = some SockState.opened then (st, some m, false)
    else (st, none, true)
  | none => (st, none, true)

/-- `sendMessage` (second revision): if not open, the message is dropped
without a warning and, when no connection promise is pending,
`createConnection` is started. -/
def sendMessageRev2 (st : CMState) (m : String) : CMState × Option String :=
  match st.globalWebSocket with
  | some i =>
    if st.socks[i]? = some SockState.opened then (st, some m)
    else
      (if st.connectionPromise = none then runCreateConnection st else st, none)
  | none =>
    (if st.connectionPromise = none then runCreateConnection st else st, none)

/-! ## Change Broadcast Hub debounce

Modelled from the spec: the server-side Hub (`backend/main.py` of the
repository) is referenced by the build scripts and the README but its
source is not part of the frontend tree, so `debounceAndEmit` is modelled
from the spec's words: on each raw event, (re)start a per-path timer; on
timer expiry, compare the path's current on-disk state to the
last-broadcast state and emit exactly one ChangeEvent of kind
content-changed or deleted only if the state actually changed. -/

/-- A normalized change event broadcast by the Hub. -/
structure ChangeEvent where
  kind : String
  path : String
deriving DecidableEq, Repr

/-- Lookup in an association list keyed by path. -/
def alLookup {α : Type} (l : List (String × α)) (k : String) : Option α :=
  match l.find? (fun q => decide (q.1 = k)) with
  | some q => some q.2
  | none => none

/-- Insert (replace) in an association list keyed by path. -/
def alInsert {α : Type} (l : List (String × α)) (k : String) (v : α) :
    List (String × α) :=
  (k, v) :: l.filter (fun q => decide (q.1 ≠ k))

/-- Remove a key from an association list. -/
def alErase {α : Type} (l : List (String × α)) (k : String) :
    List (String × α) :=
  l.filter (fun q => decide (q.1 ≠ k))

/-- Modelled from the spec: the Hub state — the per-path pending debounce
deadlines (`PendingDebounce`) and the last-broadcast on-disk state per path
(`none` meaning the path was absent). -/
structure HubState where
  deadline : List (String × Nat)
  lastBroadcast : List (String × Option String)
deriving DecidableEq, Repr

/-- Modelled from the spec: the debounce quiet interval (≈ 300–800 ms). -/
def debounceWindow : Nat := 500

/-- Modelled from the spec: the last-broadcast on-disk state of a path;
a path never broadcast counts as absent. -/
def lastBroadcastState (st : HubState) (p : String) : Option String :=
  (alLookup st.lastBroadcast p).getD none

/-- Modelled from the spec: a raw filesystem notification (re)starts the
per-path timer — the path's deadline becomes the arrival time plus the
debounce window.  No event is emitted here. -/
def onRaw (st : HubState) (p : String) (t : Nat) : HubState :=
  { st with deadline := alInsert st.deadline p (t + debounceWindow) }

/-- Modelled from the spec: timer expiry for a path.  A stale expiry (the
deadline was pushed back by a later raw event) does nothing.  A genuine
expiry clears the timer, compares the current on-disk state with the
last-broadcast state, and emits exactly one `content-changed` or `deleted`
event only if they differ. -/
def onExpiry (st : HubState) (p : String) (t : Nat) (disk : Option String) :
    HubState × List ChangeEvent :=
  if alLookup st.deadline p = some t then
    let st1 : HubState := { st with deadline := alErase st.deadline p }
    if disk = lastBroadcastState st p then (st1, [])
    else
      ({ st1 with lastBroadcast := alInsert st1.lastBroadcast p disk },
        [{ kind := if disk = none then "deleted" else "content-changed", path := p }])
  else (st, [])

/-- A Hub-level occurrence: a raw notification or a timer expiry. -/
inductive HubEvent where
  | raw (p : String) (t : Nat)
  | expire (p : String) (t : Nat) (disk : Option String)
deriving DecidableEq, Repr

/-- One Hub step, accumulating emitted events. -/
def hubStep (acc : HubState × List ChangeEvent) : HubEvent → HubState × List ChangeEvent
  | HubEvent.raw p t => (onRaw acc.1 p t, acc.2)
  | HubEvent.expire p t disk =>
    let r := onExpiry acc.1 p t disk
    (r.1, acc.2 ++ r.2)

/-- Run the Hub over a list of occurrences, collecting emitted events. -/
def hubRun (st : HubState) (evs : List HubEvent) : HubState × List ChangeEvent :=
  evs.foldl hubStep (st, [])

/-- A burst of `N = |ts| + 1 ≥ 1` raw notifications for path `p` within one
debounce window (each raw restarts the timer, so only the deadline of the
last raw, at time `t`, survives), followed by that timer's expiry, which
observes on-disk state `disk`. -/
def burstEvents (p : String) (ts : List Nat) (t : Nat) (disk : Option String) :
    List HubEvent :=
  (ts ++ [t]).map (fun u => HubEvent.raw p u) ++
    [HubEvent.expire p (t + debounceWindow) disk]

/-! ## Shared helper lemmas -/

theorem alLookup_alInsert {α : Type} (l : List (String × α)) (k : String) (v : α) :
    alLookup (alInsert l k v) k = some v := by
  unfold alLookup alInsert
  rw [List.find?_cons_of_pos]
  simp

theorem foldRaw_lastBroadcast (p : String) (ts : List Nat) (st : HubState) :
    (ts.foldl (fun s u => onRaw s p u) st).lastBroadcast = st.lastBroadcast := by
  induction ts generalizing st with
  | nil => rfl
  | cons a l ih =>
    rw [List.foldl_cons, ih]
    rfl

theorem hubRun_raws (p : String) (ts : List Nat) (st : HubState) (es : List ChangeEvent) :
    (ts.map (fun u => HubEvent.raw p u)).foldl hubStep (st, es) =
      (ts.foldl (fun s u => onRaw s p u) st, es) := by
  induction ts generalizing st with
  | nil => rfl
  | cons a l ih =>
    rw [List.map_cons, List.foldl_cons, List.foldl_cons]
    exact ih (onRaw st p a)

/-! ## Claims -/

/-- Claim C1: for every document and cursor position `(L, C)`, the
cursor-preserving hot-patch `updateContentWithoutFocus` restores the cursor
to exactly `(L, C)` whenever the new text still has at least `L` lines and
at least `C` columns on line `L`; otherwise the cursor is clamped to line
`min(L, lineCount)` and column `min(C, max column of that line)`.  The
second conjunct is the unconditional clamping law; the first is the exact
round-trip under the size hypotheses. -/
theorem claim_C1_hotpatch_cursor_roundtrip (st : EditorState) (newText : String) :
    (updateContentWithoutFocus st newText).cursor =
      { lineNumber := min st.cursor.lineNumber (lineCount newText),
        column := min st.cursor.column
          (getLineMaxColumn newText (min st.cursor.lineNumber (lineCount newText))) } ∧
    (st.cursor.lineNumber ≤ lineCount newText →
      st.cursor.column ≤ getLineMaxColumn newText st.cursor.lineNumber →
      (updateContentWithoutFocus st newText).cursor = st.cursor) := by
  constructor
  · rfl
  · intro h1 h2
    show validPosition newText st.cursor = st.cursor
    unfold validPosition
    rw [Nat.min_eq_left h1, Nat.min_eq_left h2]

/-- Witness for claim C1: a cursor at line 2, column 2 survives a hot-patch
to a three-line text whose second line has two characters. -/
theorem claim_C1_witness :
    (updateContentWithoutFocus
      { content := "ab", cursor := { lineNumber := 2, column := 2 },
        selection := { startLineNumber := 1, startColumn := 1,
                       endLineNumber := 1, endColumn := 1 } }
      ("xy\nzw\nq")).cursor = { lineNumber := 2, column := 2 } :=
  (claim_C1_hotpatch_cursor_roundtrip _ _).2 (by decide) (by decide)

/-- Counterexample to claim C2: a `file_changed` event for the currently
open document whose `sender` equals the tab's own `tabId` is not a no-op —
the handler still requests the hot-patch re-fetch and replaces the stored
file content, because `handleWebSocketMessage` never compares
`message.sender` with `tabId`. -/
theorem claim_C2_counterexample :
    (Action.fetchFileContent ("/r/a.txt")) ∈
      (handleWebSocketMessage
        { tabId := "tab-1", rootPath := "/r", selectedFile := some ("/r/a.txt"),
          fileContent := some { path := "/r/a.txt", content := "old", is_binary := false } }
        { type := "file_changed", path := some ("/r/a.txt"), sender := some ("tab-1") }
        { hasUpdateRef := true,
          fetchResult := some { path := "/r/a.txt", content := "new", is_binary := false } }).2 ∧
    (handleWebSocketMessage
        { tabId := "tab-1", rootPath := "/r", selectedFile := some ("/r/a.txt"),
          fileContent := some { path := "/r/a.txt", content := "old", is_binary := false } }
        { type := "file_changed", path := some ("/r/a.txt"), sender := some ("tab-1") }
        { hasUpdateRef := true,
          fetchResult := some { path := "/r/a.txt", content := "new", is_binary := false } }).1.fileContent ≠
      some { path := "/r/a.txt", content := "old", is_binary := false } := by decide

/-- Claim C2 as amended: the handler ignores `message.sender` entirely —
its result is identical for any two sender values — and a `file_changed`
event for the open document triggers the re-fetch regardless of the sender,
so self-originated events are handled exactly like external ones. -/
theorem claim_C2_amended_sender_ignored (st : AppState) (env : SyncEnv) (msg : WsMessage)
    (s1 s2 : Option String) (sel : String)
    (h1 : st.selectedFile = some sel) (h2 : sel ≠ "")
    (h3 : env.hasUpdateRef = true) :
    handleWebSocketMessage st { msg with sender := s1 } env =
      handleWebSocketMessage st { msg with sender := s2 } env ∧
    Action.fetchFileContent sel ∈
      (handleWebSocketMessage st
        { type := "file_changed", path := some sel, sender := s1 } env).2 := by
  constructor
  · cases msg
    rfl
  · simp only [handleWebSocketMessage, h1, if_true, reduceIte]
    simp only [h2, ne_eq, not_false_iff, true_and, if_pos rfl]
    simp [hotPatch, h3]
    cases hf : env.fetchResult <;> simp

/-- Witness for the amended claim C2, at a concrete state and event. -/
theorem claim_C2_witness :
    handleWebSocketMessage
        { tabId := "tab-1", rootPath := "/r", selectedFile := some ("/r/a.txt"),
          fileContent := none }
        { type := "file_changed", path := some ("/r/a.txt"), sender := some ("tab-1") }
        { hasUpdateRef := true, fetchResult := none } =
      handleWebSocketMessage
        { tabId := "tab-1", rootPath := "/r", selectedFile := some ("/r/a.txt"),
          fileContent := none }
        { type := "file_changed", path := some ("/r/a.txt"), sender := none }
        { hasUpdateRef := true, fetchResult := none } ∧
    Action.fetchFileContent ("/r/a.txt") ∈
      (handleWebSocketMessage
        { tabId := "tab-1", rootPath := "/r", selectedFile := some ("/r/a.txt"),
          fileContent := none }
        { type := "file_changed", path := some ("/r/a.txt"), sender := some ("tab-1") }
        { hasUpdateRef := true, fetchResult := none }).2 :=
  claim_C2_amended_sender_ignored
    { tabId := "tab-1", rootPath := "/r", selectedFile := some ("/r/a.txt"),
      fileContent := none }
    { hasUpdateRef := true, fetchResult := none }
    { type := "file_changed", path := some ("/r/a.txt"), sender := none }
    (some ("tab-1")) none ("/r/a.txt") rfl (by decide) rfl

/-- Claim C3: for every burst of `N ≥ 1` raw filesystem notifications on
the same path within one debounce window (each raw restarts the per-path
timer, so only the final deadline survives and expires), the Hub emits
exactly one ChangeEvent for that path when the observed on-disk state
differs from the last-broadcast state, and none when it does not; every
emitted event carries that path. -/
theorem claim_C3_debounce_single_emit (st : HubState) (p : String) (ts : List Nat)
    (t : Nat) (disk : Option String) :
    (hubRun st (burstEvents p ts t disk)).2.length =
      (if disk = lastBroadcastState st p then 0 else 1) ∧
    ∀ e ∈ (hubRun st (burstEvents p ts t disk)).2, e.path = p := by
  unfold hubRun burstEvents
  rw [List.foldl_append, hubRun_raws]
  have hdl : alLookup ((ts ++ [t]).foldl (fun s u => onRaw s p u) st).deadline p =
      some (t + debounceWindow) := by
    rw [List.foldl_append]
    exact alLookup_alInsert _ _ _
  have hlb2 : lastBroadcastState ((ts ++ [t]).foldl (fun s u => onRaw s p u) st) p =
      lastBroadcastState st p := by
    unfold lastBroadcastState
    rw [foldRaw_lastBroadcast]
  rw [List.foldl_cons, List.foldl_nil]
  simp only [hubStep]
  unfold onExpiry
  rw [if_pos hdl, hlb2]
  by_cases hd : disk = lastBroadcastState st p
  · rw [if_pos hd]
    simp [hd]
  · rw [if_neg hd]
    simp [hd]

/-- Witness for claim C3: a burst of three raw notifications on one path
whose on-disk state changed produces exactly one emitted event. -/
theorem claim_C3_witness :
    (hubRun { deadline := [], lastBroadcast := [] }
      (burstEvents ("/root/a.txt") [0, 100] 200 (some ("v2")))).2.length = 1 :=
  (claim_C3_debounce_single_emit { deadline := [], lastBroadcast := [] }
    ("/root/a.txt") [0, 100] 200 (some ("v2"))).1.trans (by decide)

/-- Counterexample to claim C4: two live (open) underlying WebSocket
connections are reachable.  After a transient close schedules a reconnect
timeout, a new subscriber starts a fresh connection attempt; the timeout
then fires while that attempt is still connecting and, finding
`globalWebSocket` null, creates a third socket; both pending sockets then
open. -/
theorem claim_C4_counterexample :
    1 < liveCount (runCM [CMEvent.subscribe 0, CMEvent.sockOpen 0,
      CMEvent.sockClose 0 1006, CMEvent.subscribe 1, CMEvent.timerFire,
      CMEvent.sockOpen 1, CMEvent.sockOpen 2]) := by decide

/-- Claim C4 as amended: the subscribe path itself never opens a second
connection — subscribing while a connection or pending connection attempt
exists (the connection promise is non-null) leaves the socket set, the
promise and `globalWebSocket` unchanged. -/
theorem claim_C4_amended_subscribe_reuses (st : CMState) (l : Nat)
    (h : st.connectionPromise ≠ none) :
    (applyEvent st (CMEvent.subscribe l)).socks = st.socks ∧
    (applyEvent st (CMEvent.subscribe l)).connectionPromise = st.connectionPromise ∧
    (applyEvent st (CMEvent.subscribe l)).globalWebSocket = st.globalWebSocket := by
  cases hcp : st.connectionPromise with
  | none => exact absurd hcp h
  | some i => simp [applyEvent, hcp]

/-- Witness for the amended claim C4: subscribing a second listener while a
socket is connecting creates no new socket. -/
theorem claim_C4_witness :
    (applyEvent
      { socks := [SockState.connecting], globalWebSocket := none,
        connectionPromise := some 0, listeners := [0], reconnectTimers := 0 }
      (CMEvent.subscribe 1)).socks = [SockState.connecting] ∧
    (applyEvent
      { socks := [SockState.connecting], globalWebSocket := none,
        connectionPromise := some 0, listeners := [0], reconnectTimers := 0 }
      (CMEvent.subscribe 1)).connectionPromise = some 0 ∧
    (applyEvent
      { socks := [SockState.connecting], globalWebSocket := none,
        connectionPromise := some 0, listeners := [0], reconnectTimers := 0 }
      (CMEvent.subscribe 1)).globalWebSocket = none :=
  claim_C4_amended_subscribe_reuses
    { socks := [SockState.connecting], globalWebSocket := none,
      connectionPromise := some 0, listeners := [0], reconnectTimers := 0 }
    1 (by decide)

/-- Counterexample to claim C5: a connection can be leaked after the
listener set becomes empty.  If the sole listener unsubscribes while the
socket is still connecting, the cleanup finds `globalWebSocket` null and
closes nothing; the socket then opens, leaving a live connection with zero
listeners. -/
theorem claim_C5_counterexample :
    (runCM [CMEvent.subscribe 0, CMEvent.unsubscribe 0, CMEvent.sockOpen 0]).listeners = [] ∧
    liveCount (runCM [CMEvent.subscribe 0, CMEvent.unsubscribe 0, CMEvent.sockOpen 0]) = 1 := by
  decide

/-- Claim C5 as amended: deregistering a listener while others remain
changes nothing but the listener set (so no connection is ever closed while
a listener remains), and when the last listener deregisters while a socket
is attached in `globalWebSocket`, that socket is closed and both globals
are cleared; only a connection attempt still pending at that moment escapes
the cleanup (the leak exhibited by the counterexample). -/
theorem claim_C5_amended_refcount (st : CMState) (l : Nat) :
    (st.listeners.erase l ≠ [] →
      applyEvent st (CMEvent.unsubscribe l) = { st with listeners := st.listeners.erase l }) ∧
    (st.listeners.erase l = [] → ∀ i, st.globalWebSocket = some i →
      (applyEvent st (CMEvent.unsubscribe l)).socks = st.socks.set i SockState.closed ∧
      (applyEvent st (CMEvent.unsubscribe l)).globalWebSocket = none ∧
      (applyEvent st (CMEvent.unsubscribe l)).connectionPromise = none) := by
  constructor
  · intro hne
    simp [applyEvent, hne]
  · intro he i hg
    simp [applyEvent, he, hg]

/-- Witness for the amended claim C5: with two listeners, unsubscribing one
leaves the open socket untouched; with one listener and an attached open
socket, unsubscribing it closes the socket and clears the globals. -/
theorem claim_C5_witness :
    applyEvent
      { socks := [SockState.opened], globalWebSocket := some 0,
        connectionPromise := some 0, listeners := [0, 1], reconnectTimers := 0 }
      (CMEvent.unsubscribe 1) =
      { socks := [SockState.opened], globalWebSocket := some 0,
        connectionPromise := some 0, listeners := [0], reconnectTimers := 0 } ∧
    (applyEvent
      { socks := [SockState.opened], globalWebSocket := some 0,
        connectionPromise := some 0, listeners := [1], reconnectTimers := 0 }
      (CMEvent.unsubscribe 1)).socks = [SockState.closed] ∧
    (applyEvent
      { socks := [SockState.opened], globalWebSocket := some 0,
        connectionPromise := some 0, listeners := [1], reconnectTimers := 0 }
      (CMEvent.unsubscribe 1)).globalWebSocket = none :=
  ⟨(claim_C5_amended_refcount
      { socks := [SockState.opened], globalWebSocket := some 0,
        connectionPromise := some 0, listeners := [0, 1], reconnectTimers := 0 }
      1).1 (by decide),
   ((claim_C5_amended_refcount
      { socks := [SockState.opened], globalWebSocket := some 0,
        connectionPromise := some 0, listeners := [1], reconnectTimers := 0 }
      1).2 (by decide) 0 rfl).1,
   ((claim_C5_amended_refcount
      { socks := [SockState.opened], globalWebSocket := some 0,
        connectionPromise := some 0, listeners := [1], reconnectTimers := 0 }
      1).2 (by decide) 0 rfl).2.1⟩

/-- Claim C6: when a live or connecting socket closes with the
over-capacity rejection code 1008, the close handler schedules no
reconnect timeout; when it closes with any other code, a reconnect timeout
is scheduled exactly when at least one listener remains registered. -/
theorem claim_C6_close_reconnect_policy (st : CMState) (i code : Nat)
    (h : st.socks[i]? = some SockState.connecting ∨
         st.socks[i]? = some SockState.opened) :
    (code = 1008 →
      (applyEvent st (CMEvent.sockClose i code)).reconnectTimers = st.reconnectTimers) ∧
    (code ≠ 1008 →
      (applyEvent st (CMEvent.sockClose i code)).reconnectTimers =
        (if st.listeners = [] then st.reconnectTimers else st.reconnectTimers + 1)) := by
  simp only [applyEvent]
  rw [if_pos h]
  refine ⟨fun hc => by rw [if_pos hc], fun hc => ?_⟩
  rw [if_neg hc]
  by_cases hl : st.listeners = []
  · simp [hl]
  · simp [hl]

/-- Witness for claim C6: with one listener, a 1008 close schedules no
timer and a 1006 close schedules exactly one. -/
theorem claim_C6_witness :
    (applyEvent
      { socks := [SockState.opened], globalWebSocket := some 0,
        connectionPromise := some 0, listeners := [0], reconnectTimers := 0 }
      (CMEvent.sockClose 0 1008)).reconnectTimers = 0 ∧
    (applyEvent
      { socks := [SockState.opened], globalWebSocket := some 0,
        connectionPromise := some 0, listeners := [0], reconnectTimers := 0 }
      (CMEvent.sockClose 0 1006)).reconnectTimers = 1 :=
  ⟨(claim_C6_close_reconnect_policy
      { socks := [SockState.opened], globalWebSocket := some 0,
        connectionPromise := some 0, listeners := [0], reconnectTimers := 0 }
      0 1008 (by decide)).1 rfl,
   (claim_C6_close_reconnect_policy
      { socks := [SockState.opened], globalWebSocket := some 0,
        connectionPromise := some 0, listeners := [0], reconnectTimers := 0 }
      0 1006 (by decide)).2 (by decide)⟩

/-- Counterexample to claim C7: in the second revision of `sendMessage`,
calling send while no connection is open is not free of observable state
changes — with no pending promise it starts a new connection attempt
(creating a socket and setting the promise), and it logs no warning. -/
theorem claim_C7_counterexample :
    (sendMessageRev2
      { socks := [], globalWebSocket := none, connectionPromise := none,
        listeners := [0], reconnectTimers := 0 } ("hello")).1 ≠
      { socks := [], globalWebSocket := none, connectionPromise := none,
        listeners := [0], reconnectTimers := 0 } := by decide

/-- Claim C7 as amended: when no connection is open, the primary revision
of `sendMessage` is a pure no-op with a warning — nothing transmitted,
nothing queued, state unchanged; the second revision likewise transmits
and queues nothing, but instead of warning it starts a connection attempt
when none is pending and leaves the state unchanged otherwise. -/
theorem claim_C7_amended_send_not_open (st : CMState) (m : String)
    (h : ∀ i, st.globalWebSocket = some i →
      ¬ st.socks[i]? = some SockState.opened) :
    sendMessage st m = (st, none, true) ∧
    (sendMessageRev2 st m).2 = none ∧
    (st.connectionPromise = none → (sendMessageRev2 st m).1 = runCreateConnection st) ∧
    (¬ st.connectionPromise = none → (sendMessageRev2 st m).1 = st) := by
  cases hg : st.globalWebSocket with
  | none =>
    refine ⟨by simp [sendMessage, hg], by simp [sendMessageRev2, hg], ?_, ?_⟩
    · intro hcp
      simp [sendMessageRev2, hg, hcp]
    · intro hcp
      simp [sendMessageRev2, hg, hcp]
  | some i =>
    have hop := h i hg
    refine ⟨?_, ?_, ?_, ?_⟩
    · simp only [sendMessage, hg]
      rw [if_neg hop]
    · simp only [sendMessageRev2, hg]
      rw [if_neg hop]
    · intro hcp
      simp only [sendMessageRev2, hg]
      rw [if_neg hop, if_pos hcp]
    · intro hcp
      simp only [sendMessageRev2, hg]
      rw [if_neg hop, if_neg hcp]

/-- Witness for the amended claim C7: sending while disconnected drops the
message with a warning in the primary revision. -/
theorem claim_C7_witness :
    sendMessage
      { socks := [], globalWebSocket := none, connectionPromise := none,
        listeners := [], reconnectTimers := 0 } ("ping") =
      ({ socks := [], globalWebSocket := none, connectionPromise := none,
         listeners := [], reconnectTimers := 0 }, none, true) :=
  (claim_C7_amended_send_not_open
    { socks := [], globalWebSocket := none, connectionPromise := none,
      listeners := [], reconnectTimers := 0 }
    ("ping") (fun i hi => Option.noConfusion hi)).1

/-- Claim C8: for a `file_changed` or `sync_tabs` event matching the open
document, if the hot-patch re-fetch fails, the handler falls back to a full
discard-and-reload of the document. -/
theorem claim_C8_fetch_failure_falls_back (st : AppState) (msg : WsMessage)
    (env : SyncEnv) (sel : String)
    (htype : msg.type = "file_changed" ∨ msg.type = "sync_tabs")
    (h1 : st.selectedFile = some sel) (h2 : sel ≠ "") (h3 : msg.path = some sel)
    (h4 : env.fetchResult = none) :
    Action.loadFileContent sel ∈ (handleWebSocketMessage st msg env).2 := by
  cases htype with
  | inl h =>
    simp only [handleWebSocketMessage, h, reduceIte, h1, h2, h3, ne_eq,
      not_false_iff, true_and, if_pos rfl]
    simp [hotPatch, h4]
    cases env.hasUpdateRef <;> simp
  | inr h =>
    simp only [handleWebSocketMessage, h, reduceIte, h1, h2, h3, ne_eq,
      not_false_iff, true_and, if_pos rfl]
    simp [hotPatch, h4]
    cases env.hasUpdateRef <;> simp

/-- Witness for claim C8: a failed re-fetch on a `sync_tabs` event leads to
a full reload request. -/
theorem claim_C8_witness :
    Action.loadFileContent ("/a") ∈
      (handleWebSocketMessage
        { tabId := "t", rootPath := "", selectedFile := some ("/a"), fileContent := none }
        { type := "sync_tabs", path := some ("/a"), sender := none }
        { hasUpdateRef := true, fetchResult := none }).2 :=
  claim_C8_fetch_failure_falls_back
    { tabId := "t", rootPath := "", selectedFile := some ("/a"), fileContent := none }
    { type := "sync_tabs", path := some ("/a"), sender := none }
    { hasUpdateRef := true, fetchResult := none }
    ("/a") (Or.inr rfl) rfl (by decide) rfl rfl

/-- Claim C9: a `file_deleted` event for the currently open document
surfaces the blocking deletion notice, clears the selected file and the
file content, and afterwards the content-change handler performs no write
for any content (it is a no-op once no document is selected). -/
theorem claim_C9_delete_clears_state (st : AppState) (env : SyncEnv) (sel : String)
    (h1 : st.selectedFile = some sel) (h2 : sel ≠ "") :
    Action.alertFileDeleted sel ∈
      (handleWebSocketMessage st
        { type := "file_deleted", path := some sel, sender := none } env).2 ∧
    (handleWebSocketMessage st
      { type := "file_deleted", path := some sel, sender := none } env).1.selectedFile = none ∧
    (handleWebSocketMessage st
      { type := "file_deleted", path := some sel, sender := none } env).1.fileContent = none ∧
    ∀ c : String,
      handleFileContentChange
        (handleWebSocketMessage st
          { type := "file_deleted", path := some sel, sender := none } env).1 c = [] := by
  simp only [handleWebSocketMessage, reduceIte, h1, h2, ne_eq, not_false_iff,
    true_and, if_pos rfl]
  refine ⟨by simp, rfl, rfl, ?_⟩
  intro c
  rfl

/-- Witness for claim C9: deleting the open document clears the state and a
later content change writes nothing. -/
theorem claim_C9_witness :
    Action.alertFileDeleted ("/a") ∈
      (handleWebSocketMessage
        { tabId := "t", rootPath := "", selectedFile := some ("/a"),
          fileContent := some { path := "/a", content := "x", is_binary := false } }
        { type := "file_deleted", path := some ("/a"), sender := none }
        { hasUpdateRef := false, fetchResult := none }).2 ∧
    (handleWebSocketMessage
      { tabId := "t", rootPath := "", selectedFile := some ("/a"),
        fileContent := some { path := "/a", content := "x", is_binary := false } }
      { type := "file_deleted", path := some ("/a"), sender := none }
      { hasUpdateRef := false, fetchResult := none }).1.selectedFile = none ∧
    handleFileContentChange
      (handleWebSocketMessage
        { tabId := "t", rootPath := "", selectedFile := some ("/a"),
          fileContent := some { path := "/a", content := "x", is_binary := false } }
        { type := "file_deleted", path := some ("/a"), sender := none }
        { hasUpdateRef := false, fetchResult := none }).1 ("z") = [] :=
  ⟨(claim_C9_delete_clears_state
      { tabId := "t", rootPath := "", selectedFile := some ("/a"),
        fileContent := some { path := "/a", content := "x", is_binary := false } }
      { hasUpdateRef := false, fetchResult := none } ("/a") rfl (by decide)).1,
   (claim_C9_delete_clears_state
      { tabId := "t", rootPath := "", selectedFile := some ("/a"),
        fileContent := some { path := "/a", content := "x", is_binary := false } }
      { hasUpdateRef := false, fetchResult := none } ("/a") rfl (by decide)).2.1,
   (claim_C9_delete_clears_state
      { tabId := "t", rootPath := "", selectedFile := some ("/a"),
        fileContent := some { path := "/a", content := "x", is_binary := false } }
      { hasUpdateRef := false, fetchResult := none } ("/a") rfl (by decide)).2.2.2 ("z")⟩

/-- Claim C10: an event whose path neither starts with the displayed tree
root nor equals the open document's path leaves the entire state unchanged
and requests no action at all — no tree re-listing, no re-fetch, no
reload. -/
theorem claim_C10_unrelated_event_frame (st : AppState) (msg : WsMessage) (env : SyncEnv)
    (h1 : ∀ p, msg.path = some p → strStartsWith p st.rootPath = false)
    (h2 : ∀ p, msg.path = some p → st.selectedFile ≠ some p) :
    handleWebSocketMessage st msg env = (st, []) := by
  have htree : treeGuard st msg = false := by
    unfold treeGuard
    cases hp : msg.path with
    | none => simp
    | some p => simp [h1 p hp]
  have hdoc : ∀ sel : String, st.selectedFile = some sel →
      ¬(sel ≠ "" ∧ msg.path = some sel) :=
    fun sel hsel hcon => h2 sel hcon.2 hsel
  unfold handleWebSocketMessage
  by_cases hT1 : msg.type = "file_changed"
  · simp only [hT1, reduceIte, htree, Bool.false_eq_true, if_false]
    cases hsel : st.selectedFile with
    | none => rfl
    | some sel => simp [hdoc sel hsel]
  · by_cases hT2 : msg.type = "sync_tabs"
    · simp only [hT1, hT2, reduceIte, if_false, if_true]
      cases hsel : st.selectedFile with
      | none => rfl
      | some sel => simp [hdoc sel hsel]
    · by_cases hT3 : msg.type = "file_deleted"
      · simp only [hT1, hT2, hT3, reduceIte, if_false, if_true, htree,
          Bool.false_eq_true]
        cases hsel : st.selectedFile with
        | none => rfl
        | some sel => simp [hdoc sel hsel]
      · simp [hT1, hT2, hT3]

/-- Witness for claim C10: a `file_changed` event for a path outside the
tree root and different from the open document changes nothing. -/
theorem claim_C10_witness :
    handleWebSocketMessage
      { tabId := "t", rootPath := "/r", selectedFile := some ("/r/a.txt"),
        fileContent := none }
      { type := "file_changed", path := some ("/x/b.txt"), sender := none }
      { hasUpdateRef := true, fetchResult := none } =
      ({ tabId := "t", rootPath := "/r", selectedFile := some ("/r/a.txt"),
         fileContent := none }, []) :=
  claim_C10_unrelated_event_frame
    { tabId := "t", rootPath := "/r", selectedFile := some ("/r/a.txt"),
      fileContent := none }
    { type := "file_changed", path := some ("/x/b.txt"), sender := none }
    { hasUpdateRef := true, fetchResult := none }
    (by
      intro p hp
      injection hp with h
      subst h
      decide)
    (by
      intro p hp
      injection hp with h
      subst h
      decide)

end TextIde
